import Mathlib

/- Verification of the GitLab webhook relay service (webhook_service.py).

   The service is embedded shallowly: Python strings become lists of
   characters, JSON payloads become the inductive type JVal, Python
   truthiness and dictionary access become explicit helper functions, and
   functions that raise ValueError become functions into Except.  The HTTP
   endpoint handler is a pure function from the inbound request and the
   upstream trigger response to the produced HTTP response together with
   the list of side effects it performed, in order. -/

/-- Text of the modelled service; a Python str is modelled as a list of characters. -/
abbrev Str := List Char

/-- JSON-like values: the shape of webhook payload documents. -/
inductive JVal where
  | jnull : JVal
  | jbool : Bool → JVal
  | jnum  : Int → JVal
  | jstr  : Str → JVal
  | jarr  : List JVal → JVal
  | jobj  : List (Str × JVal) → JVal

/-- Python truthiness of a JSON value: None, False, 0, empty string, empty
list and empty dict are falsy, everything else truthy. -/
def truthy : JVal → Bool
  | .jnull => false
  | .jbool b => b
  | .jnum n => decide (n ≠ 0)
  | .jstr s => decide (s ≠ [])
  | .jarr xs => !xs.isEmpty
  | .jobj fs => !fs.isEmpty

/-- Python expression a or b: the left operand when truthy, otherwise the right. -/
def pyOr (a b : JVal) : JVal := if truthy a then a else b

/-- Python dict.get(k, d) on a JSON value.  The service only ever applies
it to values that are dicts at runtime; on non-dict values we return the
default. -/
def jget (v : JVal) (k : Str) (d : JVal) : JVal :=
  match v with
  | .jobj fs =>
    match fs.lookup k with
    | some x => x
    | none => d
  | _ => d

/-- View of a JSON value as a Python str.  The service only reads string
fields through this view; non-string values are flattened to the empty
string. -/
def asStr : JVal → Str
  | .jstr s => s
  | _ => []

/-- View of a JSON value as a Python list; non-list values become empty. -/
def asArr : JVal → List JVal
  | .jarr xs => xs
  | _ => []

/-- Python str() applied to a scalar JSON value, as used by the extractors
when stringifying id fields.  The composite cases are never stringified by
the service. -/
def pyStr : JVal → Str
  | .jnull => "None".data
  | .jbool true => "True".data
  | .jbool false => "False".data
  | .jnum n => (toString n).data
  | .jstr s => s
  | .jarr _ => []
  | .jobj _ => []

/-- Python str.lower, restricted to the ASCII range the service compares. -/
def pyLower (s : Str) : Str := s.map Char.toLower

/-- Whitespace characters removed by Python str.strip. -/
def isPySpace (c : Char) : Bool :=
  c = ' ' || c = '\t' || c = '\n' || c = '\r' || c = '\x0b' || c = '\x0c'

/-- Python str.strip: drop leading and trailing whitespace. -/
def pyStrip (s : Str) : Str :=
  ((s.dropWhile isPySpace).reverse.dropWhile isPySpace).reverse

/-- Python substring containment, needle in hay. -/
def pyIn (needle hay : Str) : Bool :=
  (List.range (hay.length + 1)).any fun i => needle.isPrefixOf (hay.drop i)

/-- Fuel-driven core of Python str.replace: replace each non-overlapping
occurrence of old by new, scanning left to right. -/
def replaceFuel (old new : Str) : Nat → Str → Str
  | 0, s => s
  | _ + 1, [] => []
  | fuel + 1, c :: rest =>
    if old ≠ [] ∧ old.isPrefixOf (c :: rest) then
      new ++ replaceFuel old new fuel ((c :: rest).drop old.length)
    else
      c :: replaceFuel old new fuel rest

/-- Python str.replace(old, new) for a nonempty pattern; the service only
replaces the agent mention, which always starts with an at sign. -/
def replaceList (old new s : Str) : Str := replaceFuel old new s.length s

/-- Python slice s[:stop] with the usual negative-index wrap-around. -/
def pySliceTo (s : Str) (stop : Int) : Str :=
  if stop < 0 then s.take ((s.length + stop).toNat) else s.take stop.toNat

/-- Fixed truncation marker appended when the issue description is cut. -/
def truncSuffix : Str := "\n\n<!-- truncated -->".data

/-- Truncation of the ORIGINAL_NEEDS text, lines 320 to 324 of the source:
when the description is longer than the configured maximum it is sliced to
maxChars minus the marker length and the marker is appended. -/
def truncateNeeds (maxChars : Int) (s : Str) : Str :=
  if (s.length : Int) > maxChars then
    pySliceTo s (maxChars - (truncSuffix.length : Int)) ++ truncSuffix
  else s

/-- Runtime configuration fields read by the modelled core. -/
structure Settings where
  webhook_secret_token : Option Str
  default_target_branch : Str
  original_needs_max_chars : Int
  copilot_agent_username : Str
  copilot_agent_commit_email : Str
  enable_inline_review_comments : Bool

/-- Configuration built from the documented environment defaults. -/
def defaultSettings : Settings :=
  { webhook_secret_token := none
  , default_target_branch := "main".data
  , original_needs_max_chars := 8192
  , copilot_agent_username := "copilot-agent".data
  , copilot_agent_commit_email := "copilot@github.com".data
  , enable_inline_review_comments := true }

/-- Signature validation, lines 112 to 125: with no configured secret (or
an empty one) every request passes; otherwise the header must equal the
secret exactly. -/
def validate_signature (s : Settings) (header_token : Option Str) : Bool :=
  match s.webhook_secret_token with
  | none => true
  | some sec => if sec = [] then true else decide (header_token = some sec)

/-- Single quote character used inside the action rejection messages. -/
def quoteChar : Char := Char.ofNat 39

/-- Issue and merge request actions accepted by the extractors. -/
def allowedActions : List Str :=
  ["open".data, "reopen".data, "update".data, "edited".data]

/-- Comma-space join used when listing missing required fields. -/
def joinComma (ms : List Str) : Str := List.intercalate ", ".data ms

/-- Required-field check shared by the extractors: names of the required
keys whose value in the mapping is falsy. -/
def requiredMissing (vars : List (Str × JVal)) (ks : List Str) : List Str :=
  ks.filter fun k =>
    !(match vars.lookup k with
      | some v => truthy v
      | none => false)

/-- Assignee list inspected by the issue extractor, lines 303 to 305:
changes.assignees.current with falsy fallbacks at each step. -/
def currentAssignees (payload : JVal) : List JVal :=
  let changes := pyOr (jget payload "changes".data .jnull) (.jobj [])
  let assignees_change := pyOr (jget changes "assignees".data .jnull) (.jobj [])
  asArr (pyOr (jget assignees_change "current".data .jnull) (.jarr []))

/-- Issue extractor, source function at lines 286 to 374. -/
def extract_variables (s : Settings) (payload : JVal) :
    Except Str (List (Str × JVal)) :=
  let issue := pyOr (jget payload "object_attributes".data .jnull) (.jobj [])
  let project := pyOr (jget payload "project".data .jnull) (.jobj [])
  let repository := pyOr (jget payload "repository".data .jnull) (.jobj [])
  let action := pyLower (asStr (pyOr (jget issue "action".data .jnull) (.jstr [])))
  if action ∈ allowedActions then
    let current_assignees := currentAssignees payload
    let is_copilot_assigned :=
      match current_assignees with
      | [] => false
      | first :: _ =>
        decide (asStr (jget first "username".data (.jstr [])) = s.copilot_agent_username)
    if is_copilot_assigned then
      let original_needs :=
        truncateNeeds s.original_needs_max_chars
          (asStr (pyOr (jget issue "description".data .jnull) (.jstr [])))
      let target_branch :=
        pyOr (jget project "default_branch".data .jnull)
          (pyOr (jget repository "default_branch".data .jnull)
            (.jstr s.default_target_branch))
      let target_repo_url :=
        pyOr (jget project "http_url".data .jnull)
          (pyOr (jget project "git_http_url".data .jnull)
            (pyOr (jget repository "url".data .jnull)
              (pyOr (jget repository "homepage".data .jnull) (.jstr []))))
      let target_project_id :=
        pyOr (jget project "id".data .jnull) (jget issue "project_id".data .jnull)
      let target_project_path :=
        pyOr (jget project "path_with_namespace".data .jnull)
          (jget repository "name".data .jnull)
      let vars : List (Str × JVal) :=
        [ ("TRIGGER_TYPE".data, .jstr "issue_assignee".data)
        , ("ORIGINAL_NEEDS".data, .jstr original_needs)
        , ("TARGET_REPO_URL".data, target_repo_url)
        , ("TARGET_BRANCH".data, target_branch)
        , ("TARGET_PROJECT_ID".data, .jstr (pyStr (pyOr target_project_id (.jstr []))))
        , ("TARGET_PROJECT_PATH".data, pyOr target_project_path (.jstr []))
        , ("TARGET_ISSUE_IID".data, .jstr (pyStr (jget issue "iid".data (.jstr []))))
        , ("TARGET_ISSUE_ID".data, .jstr (pyStr (jget issue "id".data (.jstr []))))
        , ("ISSUE_AUTHOR_ID".data, .jstr (pyStr (jget issue "author_id".data (.jstr []))))
        , ("ISSUE_TITLE".data, jget issue "title".data (.jstr []))
        , ("ISSUE_URL".data, jget issue "url".data (.jstr []))
        , ("ISSUE_ACTION".data, jget issue "action".data (.jstr []))
        , ("ISSUE_STATE".data, jget issue "state".data (.jstr []))
        , ("ISSUE_UPDATED_AT".data, jget issue "updated_at".data (.jstr []))
        , ("COPILOT_AGENT_USERNAME".data, .jstr s.copilot_agent_username)
        , ("COPILOT_AGENT_COMMIT_EMAIL".data, .jstr s.copilot_agent_commit_email) ]
      let missing := requiredMissing vars
        ["TARGET_REPO_URL".data, "TARGET_PROJECT_ID".data, "TARGET_ISSUE_IID".data]
      if missing = [] then .ok vars
      else .error ("Missing required issue/project fields: ".data ++ joinComma missing)
    else .error (s.copilot_agent_username ++ " not assigned, ignoring event".data)
  else .error ("Ignoring unsupported issue action ".data ++ [quoteChar] ++ action ++ [quoteChar])

/-- Agent mention token: an at sign followed by the configured username. -/
def agentMention (s : Settings) : Str := "@".data ++ s.copilot_agent_username

/-- Note text read by the merge request note extractor, lines 134 and 135. -/
def noteText (payload : JVal) : Str :=
  asStr (jget (pyOr (jget payload "object_attributes".data .jnull) (.jobj []))
    "note".data (.jstr []))

/-- Merge request note extractor, source function at lines 128 to 196. -/
def extract_mr_note_variables (s : Settings) (payload : JVal) :
    Except Str (List (Str × JVal)) :=
  let note_text := noteText payload
  if pyIn (agentMention s) note_text then
    let mr := pyOr (jget payload "merge_request".data .jnull) (.jobj [])
    let project := pyOr (jget payload "project".data .jnull) (.jobj [])
    let user := pyOr (jget payload "user".data .jnull) (.jobj [])
    let source_branch := jget mr "source_branch".data (.jstr [])
    let target_branch := jget mr "target_branch".data (.jstr [])
    let mr_iid := jget mr "iid".data (.jstr [])
    let mr_id := jget mr "id".data (.jstr [])
    let target_repo_url :=
      pyOr (jget project "http_url".data .jnull)
        (pyOr (jget project "git_http_url".data .jnull) (.jstr []))
    let target_project_id :=
      pyOr (jget project "id".data .jnull) (jget mr "target_project_id".data .jnull)
    let target_project_path := jget project "path_with_namespace".data (.jstr [])
    let instruction := pyStrip (replaceList (agentMention s) [] note_text)
    let vars : List (Str × JVal) :=
      [ ("TRIGGER_TYPE".data, .jstr "mr_note".data)
      , ("MR_NOTE_INSTRUCTION".data, .jstr instruction)
      , ("TARGET_REPO_URL".data, target_repo_url)
      , ("TARGET_BRANCH".data, target_branch)
      , ("SOURCE_BRANCH".data, source_branch)
      , ("NEW_BRANCH_NAME".data, source_branch)
      , ("TARGET_PROJECT_ID".data, .jstr (pyStr (pyOr target_project_id (.jstr []))))
      , ("TARGET_PROJECT_PATH".data, target_project_path)
      , ("TARGET_MR_IID".data, .jstr (pyStr mr_iid))
      , ("TARGET_MR_ID".data, .jstr (pyStr mr_id))
      , ("MR_TITLE".data, jget mr "title".data (.jstr []))
      , ("MR_URL".data, jget mr "url".data (.jstr []))
      , ("MR_AUTHOR_ID".data, .jstr (pyStr (jget mr "author_id".data (.jstr []))))
      , ("NOTE_AUTHOR_ID".data, .jstr (pyStr (jget user "id".data (.jstr []))))
      , ("NOTE_AUTHOR_USERNAME".data, jget user "username".data (.jstr []))
      , ("COPILOT_AGENT_USERNAME".data, .jstr s.copilot_agent_username)
      , ("COPILOT_AGENT_COMMIT_EMAIL".data, .jstr s.copilot_agent_commit_email) ]
    let missing := requiredMissing vars
      ["TARGET_REPO_URL".data, "TARGET_PROJECT_ID".data,
       "SOURCE_BRANCH".data, "TARGET_MR_IID".data]
    if missing = [] then .ok vars
    else .error ("Missing required MR/project fields: ".data ++ joinComma missing)
  else .error (agentMention s ++ " not mentioned in note".data)

/-- Merge request reviewer extractor, source function at lines 199 to 283. -/
def extract_mr_reviewer_variables (s : Settings) (payload : JVal) :
    Except Str (List (Str × JVal)) :=
  let mr := pyOr (jget payload "object_attributes".data .jnull) (.jobj [])
  let project := pyOr (jget payload "project".data .jnull) (.jobj [])
  let user := pyOr (jget payload "user".data .jnull) (.jobj [])
  let changes := pyOr (jget payload "changes".data .jnull) (.jobj [])
  let action := pyLower (asStr (pyOr (jget mr "action".data .jnull) (.jstr [])))
  if action ∈ allowedActions then
    let reviewers_change := pyOr (jget changes "reviewers".data .jnull) (.jobj [])
    let current_reviewers := asArr (pyOr (jget reviewers_change "current".data .jnull) (.jarr []))
    let is_copilot_reviewer := current_reviewers.any fun reviewer =>
      decide (asStr (jget reviewer "username".data (.jstr [])) = s.copilot_agent_username)
    if is_copilot_reviewer then
      let target_repo_url :=
        pyOr (jget project "http_url".data .jnull)
          (pyOr (jget project "git_http_url".data .jnull) (.jstr []))
      let target_project_id :=
        pyOr (jget project "id".data .jnull) (jget mr "target_project_id".data .jnull)
      let vars : List (Str × JVal) :=
        [ ("TRIGGER_TYPE".data, .jstr "mr_reviewer".data)
        , ("TARGET_REPO_URL".data, target_repo_url)
        , ("TARGET_BRANCH".data, jget mr "target_branch".data (.jstr []))
        , ("SOURCE_BRANCH".data, jget mr "source_branch".data (.jstr []))
        , ("TARGET_PROJECT_ID".data, .jstr (pyStr (pyOr target_project_id (.jstr []))))
        , ("TARGET_PROJECT_PATH".data, jget project "path_with_namespace".data (.jstr []))
        , ("TARGET_MR_IID".data, .jstr (pyStr (jget mr "iid".data (.jstr []))))
        , ("TARGET_MR_ID".data, .jstr (pyStr (jget mr "id".data (.jstr []))))
        , ("MR_TITLE".data, jget mr "title".data (.jstr []))
        , ("MR_DESCRIPTION".data, jget mr "description".data (.jstr []))
        , ("MR_URL".data, jget mr "url".data (.jstr []))
        , ("MR_AUTHOR_ID".data, .jstr (pyStr (jget mr "author_id".data (.jstr []))))
        , ("MR_ACTION".data, .jstr action)
        , ("MR_STATE".data, jget mr "state".data (.jstr []))
        , ("REVIEWER_ASSIGNER_ID".data, .jstr (pyStr (jget user "id".data (.jstr []))))
        , ("REVIEWER_ASSIGNER_USERNAME".data, jget user "username".data (.jstr []))
        , ("COPILOT_AGENT_USERNAME".data, .jstr s.copilot_agent_username)
        , ("COPILOT_AGENT_COMMIT_EMAIL".data, .jstr s.copilot_agent_commit_email)
        , ("ENABLE_INLINE_REVIEW_COMMENTS".data,
           .jstr (if s.enable_inline_review_comments then "true".data else "false".data)) ]
      let missing := requiredMissing vars
        ["TARGET_REPO_URL".data, "TARGET_PROJECT_ID".data,
         "SOURCE_BRANCH".data, "TARGET_MR_IID".data]
      if missing = [] then .ok vars
      else .error ("Missing required MR/project fields: ".data ++ joinComma missing)
    else .error (s.copilot_agent_username ++ " not assigned as reviewer, ignoring event".data)
  else .error ("Ignoring unsupported MR action ".data ++ [quoteChar] ++ action ++ [quoteChar])

/-- Inbound request: headers plus the result of parsing the body as JSON,
none when the body is missing or not parseable. -/
structure Req where
  headers : List (Str × Str)
  body : Option JVal

/-- Header lookup as performed through the framework request object. -/
def headerGet (r : Req) (k : Str) : Option Str := r.headers.lookup k

/-- Result of the outbound trigger HTTP POST: transport failure or an HTTP
response with status code, body text and parsed JSON body. -/
inductive Upstream where
  | transportError : Str → Upstream
  | response : Int → Str → JVal → Upstream

/-- Observable side effects of one request, recorded in the order the
handler performs them. -/
inductive Effect where
  | persisted : Effect
  | triggerPosted : Effect

/-- Outcome of one request: HTTP status, the status field of the JSON
body, the optional reason, the three success-body fields, and the side
effects performed. -/
structure HandlerResult where
  httpStatus : Int
  statusField : Str
  reason : Option Str
  pipeline_id : Option JVal
  web_url : Option JVal
  ref : Option JVal
  events : List Effect

/-- Membership test of the event header against the supported hooks. -/
def supportedEvent : Option Str → Bool
  | none => false
  | some e =>
    decide (e = "Issue Hook".data ∨ e = "Note Hook".data ∨ e = "Merge Request Hook".data)

/-- Check whether a note event is attached to a merge request. -/
def isMergeRequestNote (noteable_type : JVal) : Bool :=
  match noteable_type with
  | .jstr t => decide (t = "MergeRequest".data)
  | _ => false

/-- Tail of the handler after extraction, lines 426 to 478: a ValueError
becomes a 202 ignored response; otherwise the trigger POST is attempted
and its outcome is interpreted. -/
def afterExtraction (extraction : Except Str (List (Str × JVal)))
    (upstream : Upstream) : HandlerResult :=
  match extraction with
  | .error e => ⟨202, "ignored".data, some e, none, none, none, [.persisted]⟩
  | .ok _vars =>
    match upstream with
    | .transportError m =>
      ⟨502, "error".data, some ("Pipeline trigger request failed: ".data ++ m),
        none, none, none, [.persisted, .triggerPosted]⟩
    | .response code text bodyJson =>
      if 300 ≤ code then
        ⟨code, "error".data,
          some (if text ≠ [] then text else "Failed to trigger pipeline".data),
          none, none, none, [.persisted, .triggerPosted]⟩
      else
        ⟨200, "queued".data, none,
          some (jget bodyJson "id".data .jnull),
          some (jget bodyJson "web_url".data .jnull),
          some (jget bodyJson "ref".data .jnull),
          [.persisted, .triggerPosted]⟩

/-- HTTP endpoint handler, source function at lines 389 to 478. -/
def issue_webhook (s : Settings) (req : Req) (upstream : Upstream) : HandlerResult :=
  if validate_signature s (headerGet req "X-Gitlab-Token".data) then
    let event_name := headerGet req "X-Gitlab-Event".data
    if supportedEvent event_name then
      match req.body with
      | some payload =>
        if truthy payload then
          if event_name = some "Note Hook".data then
            let noteable_type :=
              jget (jget payload "object_attributes".data (.jobj []))
                "noteable_type".data .jnull
            if isMergeRequestNote noteable_type then
              afterExtraction (extract_mr_note_variables s payload) upstream
            else
              ⟨202, "ignored".data,
                some ("Note on ".data ++ pyStr noteable_type ++ " not supported".data),
                none, none, none, [.persisted]⟩
          else if event_name = some "Merge Request Hook".data then
            afterExtraction (extract_mr_reviewer_variables s payload) upstream
          else
            afterExtraction (extract_variables s payload) upstream
        else ⟨400, "error".data, some "Expected JSON payload".data, none, none, none, []⟩
      | none => ⟨400, "error".data, some "Expected JSON payload".data, none, none, none, []⟩
    else ⟨202, "ignored".data, some "Unsupported event type".data, none, none, none, []⟩
  else ⟨401, "ignored".data, some "Invalid webhook token".data, none, none, none, []⟩

/-- Lookup of one variable in the mapping produced by a successful
extraction; none when the extraction failed or the key is absent. -/
def lookupOk (r : Except Str (List (Str × JVal))) (k : Str) : Option JVal :=
  match r with
  | .ok m => m.lookup k
  | .error _ => none

/-- Test whether a mapping value is a Python string. -/
def isStringVal : JVal → Bool
  | .jstr _ => true
  | _ => false

/-- Configuration with the inline-review-comment flag disabled. -/
def cfgInlineOff : Settings :=
  { defaultSettings with enable_inline_review_comments := false }

/-- Configuration with the webhook secret set to abc. -/
def cfgSecretAbc : Settings :=
  { defaultSettings with webhook_secret_token := some "abc".data }

/-- Merge request payload with an allowed action, all required fields, and
the agent as the second of two reviewers. -/
def reviewerSecondPayload : JVal := .jobj
  [ ("object_attributes".data, .jobj
      [ ("action".data, .jstr "update".data)
      , ("source_branch".data, .jstr "feature".data)
      , ("target_branch".data, .jstr "main".data)
      , ("iid".data, .jnum 7)
      , ("id".data, .jnum 70)
      , ("title".data, .jstr "Add feature".data)
      , ("description".data, .jstr "Does things".data)
      , ("url".data, .jstr "https://x/mr/7".data)
      , ("author_id".data, .jnum 1)
      , ("state".data, .jstr "opened".data) ])
  , ("project".data, .jobj
      [ ("id".data, .jnum 5)
      , ("http_url".data, .jstr "https://x/y.git".data)
      , ("path_with_namespace".data, .jstr "x/y".data) ])
  , ("user".data, .jobj
      [ ("id".data, .jnum 2)
      , ("username".data, .jstr "alice".data) ])
  , ("changes".data, .jobj
      [ ("reviewers".data, .jobj
          [ ("current".data, .jarr
              [ .jobj [("username".data, .jstr "bob".data)]
              , .jobj [("username".data, .jstr "copilot-agent".data)] ]) ]) ]) ]

/-- Issue payload with an allowed action where the agent is only the
second of two assignees. -/
def issueSecondPayload : JVal := .jobj
  [ ("object_attributes".data, .jobj
      [ ("action".data, .jstr "update".data)
      , ("iid".data, .jnum 3)
      , ("id".data, .jnum 30)
      , ("title".data, .jstr "Fix bug".data) ])
  , ("project".data, .jobj
      [ ("id".data, .jnum 5)
      , ("http_url".data, .jstr "https://x/y.git".data) ])
  , ("changes".data, .jobj
      [ ("assignees".data, .jobj
          [ ("current".data, .jarr
              [ .jobj [("username".data, .jstr "alice".data)]
              , .jobj [("username".data, .jstr "copilot-agent".data)] ]) ]) ]) ]

/-- Issue payload whose title field is the number 42 rather than a string;
the agent is the first assignee and all required fields are present. -/
def numericTitlePayload : JVal := .jobj
  [ ("object_attributes".data, .jobj
      [ ("action".data, .jstr "open".data)
      , ("iid".data, .jnum 3)
      , ("id".data, .jnum 30)
      , ("title".data, .jnum 42)
      , ("description".data, .jstr "fix bug".data) ])
  , ("project".data, .jobj
      [ ("id".data, .jnum 5)
      , ("http_url".data, .jstr "https://x/y.git".data)
      , ("path_with_namespace".data, .jstr "x/y".data) ])
  , ("changes".data, .jobj
      [ ("assignees".data, .jobj
          [ ("current".data, .jarr
              [ .jobj [("username".data, .jstr "copilot-agent".data)] ]) ]) ]) ]

/-- Merge request note payload mentioning the agent, with all required
fields; the attached merge request action is irrelevant to this extractor. -/
def notePleaseFixPayload : JVal := .jobj
  [ ("object_attributes".data, .jobj
      [ ("note".data, .jstr "@copilot-agent please fix".data)
      , ("noteable_type".data, .jstr "MergeRequest".data) ])
  , ("merge_request".data, .jobj
      [ ("source_branch".data, .jstr "feature".data)
      , ("target_branch".data, .jstr "main".data)
      , ("iid".data, .jnum 9)
      , ("id".data, .jnum 90)
      , ("title".data, .jstr "Fix stuff".data)
      , ("url".data, .jstr "https://x/mr/9".data)
      , ("author_id".data, .jnum 1) ])
  , ("project".data, .jobj
      [ ("id".data, .jnum 5)
      , ("http_url".data, .jstr "https://x/y.git".data)
      , ("path_with_namespace".data, .jstr "x/y".data) ])
  , ("user".data, .jobj
      [ ("id".data, .jnum 2)
      , ("username".data, .jstr "alice".data) ]) ]

/-- Merge request note payload whose note never mentions the agent. -/
def noteNoMentionPayload : JVal := .jobj
  [ ("object_attributes".data, .jobj
      [ ("note".data, .jstr "please fix".data)
      , ("noteable_type".data, .jstr "MergeRequest".data) ]) ]

/-- A successful upstream trigger response. -/
def upstreamOk : Upstream := .response 200 [] (.jobj [])

/-- Issue Hook request carrying the numeric-title payload. -/
def reqIssue : Req :=
  { headers := [("X-Gitlab-Event".data, "Issue Hook".data)]
  , body := some numericTitlePayload }

/-- Request with an unsupported event type header. -/
def reqUnsupported : Req :=
  { headers := [("X-Gitlab-Event".data, "Push Hook".data)]
  , body := some numericTitlePayload }

/-- Issue Hook request whose body is missing or unparseable. -/
def reqNoBody : Req :=
  { headers := [("X-Gitlab-Event".data, "Issue Hook".data)]
  , body := none }

/-- Issue Hook request whose body parses to the empty JSON object. -/
def reqFalsyBody : Req :=
  { headers := [("X-Gitlab-Event".data, "Issue Hook".data)]
  , body := some (.jobj []) }

/-- Issue Hook request carrying the wrong secret header. -/
def reqWrongToken : Req :=
  { headers :=
      [ ("X-Gitlab-Token".data, "wrong".data)
      , ("X-Gitlab-Event".data, "Issue Hook".data) ]
  , body := some numericTitlePayload }

/-- Helper: a description no longer than the configured maximum passes
through truncation unchanged. -/
theorem truncateNeeds_short (maxChars : Int) (s : Str)
    (hle : (s.length : Int) ≤ maxChars) : truncateNeeds maxChars s = s := by
  unfold truncateNeeds
  rw [if_neg (by omega)]

/-- Helper: under a marker-sized maximum, a long description truncates to
exactly the maximum length. -/
theorem truncateNeeds_length_eq (maxChars : Int) (s : Str)
    (h20 : (truncSuffix.length : Int) ≤ maxChars)
    (hlong : maxChars < (s.length : Int)) :
    ((truncateNeeds maxChars s).length : Int) = maxChars := by
  unfold truncateNeeds pySliceTo
  rw [if_pos hlong, if_neg (by omega)]
  simp only [List.length_append, List.length_take]
  omega

/-- C1 (amended): provided the configured maximum is at least the length of
the truncation marker (twenty characters), a description longer than the
maximum is truncated to length at most the maximum and the result ends with
the marker, a description within the maximum passes through unchanged, and
the truncation is idempotent. -/
theorem c1_truncation (maxChars : Int) (s : Str)
    (hmax : (truncSuffix.length : Int) ≤ maxChars) :
    ((s.length : Int) ≤ maxChars → truncateNeeds maxChars s = s)
    ∧ (maxChars < (s.length : Int) →
        ((truncateNeeds maxChars s).length : Int) ≤ maxChars
        ∧ truncSuffix <:+ truncateNeeds maxChars s)
    ∧ truncateNeeds maxChars (truncateNeeds maxChars s) = truncateNeeds maxChars s := by
  refine ⟨truncateNeeds_short maxChars s, ?_, ?_⟩
  · intro hlong
    refine ⟨le_of_eq (truncateNeeds_length_eq maxChars s hmax hlong), ?_⟩
    unfold truncateNeeds pySliceTo
    rw [if_pos hlong, if_neg (by omega)]
    exact List.suffix_append _ _
  · by_cases hlong : maxChars < (s.length : Int)
    · exact truncateNeeds_short maxChars (truncateNeeds maxChars s)
        (le_of_eq (truncateNeeds_length_eq maxChars s hmax hlong))
    · have h := truncateNeeds_short maxChars s (le_of_not_lt hlong)
      rw [h]
      exact h

/-- C1 counterexample: with configured maximum 5 and a six-character
description, the produced text has length 20, exceeding the maximum. -/
theorem c1_counterexample :
    5 < (("aaaaaa".data : Str).length : Int)
    ∧ ¬ (((truncateNeeds 5 "aaaaaa".data).length : Int) ≤ 5) := by
  decide

/-- C1 witness: the amended truncation theorem applied at maximum 25 and a
thirty-character description. -/
theorem c1_truncation_witness :
    ((truncateNeeds 25 "aaaaaaaaaaaaaaaaaaaaaaaaaaaaaa".data).length : Int) ≤ 25
    ∧ truncSuffix <:+ truncateNeeds 25 "aaaaaaaaaaaaaaaaaaaaaaaaaaaaaa".data :=
  (c1_truncation 25 "aaaaaaaaaaaaaaaaaaaaaaaaaaaaaa".data (by decide)).2.1 (by decide)

/-- C2: the issue extractor inspects only the first element of
changes.assignees.current, so extraction fails whenever the first assignee
is not the agent, even when the agent appears later in the list; the
merge request reviewer extractor inspects every element, so the concrete
payload with the agent as the second reviewer, an allowed action and all
required fields succeeds. -/
theorem c2_assignment_asymmetry :
    (∀ (s : Settings) (payload : JVal) (first : JVal) (rest : List JVal),
      currentAssignees payload = first :: rest →
      asStr (jget first "username".data (.jstr [])) ≠ s.copilot_agent_username →
      ∃ e, extract_variables s payload = .error e)
    ∧ lookupOk (extract_mr_reviewer_variables defaultSettings reviewerSecondPayload)
        "TRIGGER_TYPE".data = some (.jstr "mr_reviewer".data) := by
  constructor
  · intro s payload first rest hcur hname
    have hdec : decide (asStr (jget first "username".data (.jstr []))
        = s.copilot_agent_username) = false := by simp [hname]
    simp only [extract_variables, hcur, hdec]
    split
    · rw [if_neg (by simp)]
      exact ⟨_, rfl⟩
    · exact ⟨_, rfl⟩
  · rfl

/-- C2 witness: the asymmetry theorem applied to the concrete payload with
the agent only as the second assignee yields a rejection. -/
theorem c2_assignment_witness :
    lookupOk (extract_variables defaultSettings issueSecondPayload)
      "TRIGGER_TYPE".data = none := by
  obtain ⟨e, he⟩ := c2_assignment_asymmetry.1 defaultSettings issueSecondPayload
    (.jobj [("username".data, .jstr "alice".data)])
    [.jobj [("username".data, .jstr "copilot-agent".data)]]
    rfl (by decide)
  rw [he]
  rfl

/-- C3: a note that never mentions the agent is rejected with the
not-mentioned reason; on every successful extraction the produced
MR_NOTE_INSTRUCTION equals the note text with every occurrence of the
mention removed and surrounding whitespace stripped; and on the concrete
note mentioning the agent the instruction is please fix.  The extractor
applies no action-type filtering: no hypothesis about an action is needed,
and the concrete payload carries none. -/
theorem c3_mr_note_mention :
    (∀ (s : Settings) (payload : JVal),
      pyIn (agentMention s) (noteText payload) = false →
      extract_mr_note_variables s payload
        = .error (agentMention s ++ " not mentioned in note".data))
    ∧ (∀ (s : Settings) (payload : JVal) (m : List (Str × JVal)),
      extract_mr_note_variables s payload = .ok m →
      m.lookup "MR_NOTE_INSTRUCTION".data
        = some (.jstr (pyStrip (replaceList (agentMention s) [] (noteText payload)))))
    ∧ lookupOk (extract_mr_note_variables defaultSettings notePleaseFixPayload)
        "MR_NOTE_INSTRUCTION".data = some (.jstr "please fix".data) := by
  refine ⟨?_, ?_, rfl⟩
  · intro s payload h
    simp only [extract_mr_note_variables, h]
    rw [if_neg (by simp)]
  · intro s payload m hok
    simp only [extract_mr_note_variables] at hok
    split at hok
    · split at hok
      · rw [Except.ok.injEq] at hok
        subst hok
        rfl
      · exact absurd hok (by simp)
    · exact absurd hok (by simp)

/-- C3 witness: the mention theorem applied to the concrete payload whose
note does not mention the agent. -/
theorem c3_mr_note_witness :
    extract_mr_note_variables defaultSettings noteNoMentionPayload
      = .error (agentMention defaultSettings ++ " not mentioned in note".data) :=
  c3_mr_note_mention.1 defaultSettings noteNoMentionPayload rfl

/-- C4: evaluation of the issue extractor at the failing input.  The
payload carries the number 42 in the title field; extraction succeeds and
the produced mapping stores the raw number for ISSUE_TITLE, not a string,
contradicting the declared string-to-string mapping type: only the id
fields are stringified. -/
theorem c4_nonstring_value :
    lookupOk (extract_variables defaultSettings numericTitlePayload)
      "ISSUE_TITLE".data = some (.jnum 42)
    ∧ isStringVal (.jnum 42) = false
    ∧ lookupOk (extract_variables defaultSettings numericTitlePayload)
        "TRIGGER_TYPE".data = some (.jstr "issue_assignee".data) :=
  ⟨rfl, rfl, rfl⟩

/-- C5: with no configured secret, or an empty one, every header value
passes validation, including an absent header; with a nonempty configured
secret, validation passes exactly when the header value equals the secret,
character for character. -/
theorem c5_signature_validation (s : Settings) (h : Option Str) :
    ((s.webhook_secret_token = none ∨ s.webhook_secret_token = some []) →
      validate_signature s h = true)
    ∧ (∀ sec, s.webhook_secret_token = some sec → sec ≠ [] →
        (validate_signature s h = true ↔ h = some sec)) := by
  constructor
  · rintro (hn | he)
    · simp [validate_signature, hn]
    · simp [validate_signature, he]
  · intro sec hs hne
    simp [validate_signature, hs, hne]

/-- C5 witness: the validation theorem applied to the configuration with
secret abc and a matching header. -/
theorem c5_signature_witness :
    validate_signature cfgSecretAbc (some "abc".data) = true :=
  ((c5_signature_validation cfgSecretAbc (some "abc".data)).2 "abc".data rfl
    (by decide)).mpr rfl

/-- C6: whenever a request reaches the trigger call and the upstream
response has status at least 300, the handler mirrors that status, sets
the status field to error, and reports the upstream body as the reason, or
the default message when that body is empty. -/
theorem c6_upstream_mirroring (s : Settings) (req : Req) (payload : JVal)
    (m : List (Str × JVal)) (code : Int) (text : Str) (bodyJson : JVal)
    (hsig : validate_signature s (headerGet req "X-Gitlab-Token".data) = true)
    (hev : headerGet req "X-Gitlab-Event".data = some "Issue Hook".data)
    (hbody : req.body = some payload)
    (htr : truthy payload = true)
    (hex : extract_variables s payload = .ok m)
    (hcode : 300 ≤ code) :
    (issue_webhook s req (.response code text bodyJson)).httpStatus = code
    ∧ (issue_webhook s req (.response code text bodyJson)).statusField = "error".data
    ∧ (issue_webhook s req (.response code text bodyJson)).reason
        = some (if text ≠ [] then text else "Failed to trigger pipeline".data) := by
  simp +decide [issue_webhook, hsig, hev, hbody, htr, hex, hcode, afterExtraction,
    supportedEvent]

/-- C7: a request passing signature validation whose event header is not a
supported hook is answered 202 ignored with reason Unsupported event type,
a result independent of the request body, which is never consulted; for a
supported event type a missing or unparseable body is answered 400 error. -/
theorem c7_classification (s : Settings) (req : Req) (upstream : Upstream)
    (hsig : validate_signature s (headerGet req "X-Gitlab-Token".data) = true) :
    (supportedEvent (headerGet req "X-Gitlab-Event".data) = false →
      issue_webhook s req upstream
        = ⟨202, "ignored".data, some "Unsupported event type".data, none, none, none, []⟩)
    ∧ (supportedEvent (headerGet req "X-Gitlab-Event".data) = true → req.body = none →
      issue_webhook s req upstream
        = ⟨400, "error".data, some "Expected JSON payload".data, none, none, none, []⟩) := by
  constructor
  · intro hsup
    simp [issue_webhook, hsig, hsup]
  · intro hsup hbody
    simp [issue_webhook, hsig, hsup, hbody]

/-- C7 witness: the classification theorem applied to a concrete request
with an unsupported event header, and to a concrete supported request with
no parseable body. -/
theorem c7_classification_witness :
    issue_webhook defaultSettings reqUnsupported upstreamOk
      = ⟨202, "ignored".data, some "Unsupported event type".data, none, none, none, []⟩
    ∧ issue_webhook defaultSettings reqNoBody upstreamOk
      = ⟨400, "error".data, some "Expected JSON payload".data, none, none, none, []⟩ :=
  ⟨(c7_classification defaultSettings reqUnsupported upstreamOk rfl).1 rfl,
   (c7_classification defaultSettings reqNoBody upstreamOk rfl).2 rfl rfl⟩

/-- C8: a request failing signature validation is answered 401 with no
side effect at all, neither persistence nor a trigger call; a request with
a valid signature, a supported event and a truthy JSON body performs
persistence as its first side effect, before extraction is dispatched and
regardless of whether extraction or the trigger call later succeeds. -/
theorem c8_persistence :
    (∀ (s : Settings) (req : Req) (u : Upstream),
      validate_signature s (headerGet req "X-Gitlab-Token".data) = false →
      issue_webhook s req u
        = ⟨401, "ignored".data, some "Invalid webhook token".data, none, none, none, []⟩)
    ∧ (∀ (s : Settings) (req : Req) (u : Upstream) (payload : JVal),
      validate_signature s (headerGet req "X-Gitlab-Token".data) = true →
      supportedEvent (headerGet req "X-Gitlab-Event".data) = true →
      req.body = some payload → truthy payload = true →
      (issue_webhook s req u).events.head? = some .persisted) := by
  constructor
  · intro s req u hsig
    simp [issue_webhook, hsig]
  · intro s req u payload hsig hsup hbody htr
    have hafter : ∀ (ex : Except Str (List (Str × JVal))) (up : Upstream),
        (afterExtraction ex up).events.head? = some .persisted := by
      intro ex up
      unfold afterExtraction
      split
      · rfl
      · split
        · rfl
        · split <;> rfl
    simp only [issue_webhook, hsig, hsup, hbody, htr, if_true]
    split
    · split
      · exact hafter _ _
      · rfl
    · split
      · exact hafter _ _
      · exact hafter _ _

/-- C8 witness: the persistence theorem applied to a concrete request with
a wrong secret header, and to a concrete fully valid issue request. -/
theorem c8_persistence_witness :
    issue_webhook cfgSecretAbc reqWrongToken upstreamOk
      = ⟨401, "ignored".data, some "Invalid webhook token".data, none, none, none, []⟩
    ∧ (issue_webhook defaultSettings reqIssue upstreamOk).events.head? = some .persisted :=
  ⟨c8_persistence.1 cfgSecretAbc reqWrongToken upstreamOk rfl,
   c8_persistence.2 defaultSettings reqIssue upstreamOk numericTitlePayload rfl rfl rfl rfl⟩

/-- C9 counterexample: with the inline-review flag disabled the reviewer
extractor still succeeds on the concrete payload and produces the literal
string false, not true, for ENABLE_INLINE_REVIEW_COMMENTS. -/
theorem c9_counterexample :
    lookupOk (extract_mr_reviewer_variables cfgInlineOff reviewerSecondPayload)
      "ENABLE_INLINE_REVIEW_COMMENTS".data = some (.jstr "false".data)
    ∧ ("false".data : Str) ≠ "true".data :=
  ⟨rfl, by decide⟩

/-- C9 (amended): on every successful extraction the
ENABLE_INLINE_REVIEW_COMMENTS entry is the configured flag rendered as the
literal string true when the flag is set and false otherwise. -/
theorem c9_inline_flag (s : Settings) (payload : JVal) (m : List (Str × JVal))
    (hok : extract_mr_reviewer_variables s payload = .ok m) :
    m.lookup "ENABLE_INLINE_REVIEW_COMMENTS".data
      = some (.jstr (if s.enable_inline_review_comments
          then "true".data else "false".data)) := by
  simp only [extract_mr_reviewer_variables] at hok
  split at hok
  · split at hok
    · split at hok
      · next hfl =>
        split at hok
        · rw [Except.ok.injEq] at hok
          subst hok
          rw [if_pos hfl]
          rfl
        · exact absurd hok (by simp)
      · next hfl =>
        split at hok
        · rw [Except.ok.injEq] at hok
          subst hok
          rw [if_neg hfl]
          rfl
        · exact absurd hok (by simp)
    · exact absurd hok (by simp)
  · exact absurd hok (by simp)

/-- C9 witness: the amended flag theorem applied to the default
configuration and the concrete reviewer payload. -/
theorem c9_inline_flag_witness :
    lookupOk (extract_mr_reviewer_variables defaultSettings reviewerSecondPayload)
      "ENABLE_INLINE_REVIEW_COMMENTS".data = some (.jstr "true".data) :=
  c9_inline_flag defaultSettings reviewerSecondPayload _ rfl

/-- C10: with a valid signature and a supported event type, a body parsing
to a falsy JSON value such as the empty object is treated exactly like a
missing body: 400 error with reason Expected JSON payload and no
persistence, extraction or trigger call. -/
theorem c10_falsy_body (s : Settings) (req : Req) (u : Upstream) (j : JVal)
    (hsig : validate_signature s (headerGet req "X-Gitlab-Token".data) = true)
    (hsup : supportedEvent (headerGet req "X-Gitlab-Event".data) = true)
    (hbody : req.body = some j)
    (htr : truthy j = false) :
    issue_webhook s req u
      = ⟨400, "error".data, some "Expected JSON payload".data, none, none, none, []⟩ := by
  simp [issue_webhook, hsig, hsup, hbody, htr]

/-- C10 witness: the falsy-body theorem applied to the concrete request
whose body is the empty JSON object. -/
theorem c10_falsy_body_witness :
    issue_webhook defaultSettings reqFalsyBody upstreamOk
      = ⟨400, "error".data, some "Expected JSON payload".data, none, none, none, []⟩ :=
  c10_falsy_body defaultSettings reqFalsyBody upstreamOk (.jobj []) rfl rfl rfl rfl

/-- C6 witness: the mirroring theorem applied to the concrete issue
request with an upstream 500 response whose body is server error. -/
theorem c6_upstream_witness :
    (issue_webhook defaultSettings reqIssue
      (.response 500 "server error".data (.jobj []))).httpStatus = 500
    ∧ (issue_webhook defaultSettings reqIssue
      (.response 500 "server error".data (.jobj []))).statusField = "error".data
    ∧ (issue_webhook defaultSettings reqIssue
      (.response 500 "server error".data (.jobj []))).reason
        = some "server error".data := by
  have h := c6_upstream_mirroring defaultSettings reqIssue numericTitlePayload _
    500 "server error".data (.jobj []) rfl rfl rfl rfl rfl (by norm_num)
  refine ⟨h.1, h.2.1, ?_⟩
  rw [h.2.2, if_pos (by decide)]
